import Mathlib

/-!
Shallow embedding of the response-normalization and resilience core of the
`mcp-o3-search-for-typescript` repository, together with proofs checking its
natural-language specification.

Source files embedded:
- `src/utils/cost-calculator.ts` (cost model)
- `src/utils/client.ts` (response normalizer and error classifier)
- `src/services/search.ts` (search orchestrator and retry loop)
- `src/utils/validation.ts` (`validateSearchParams`)

JavaScript runtime values are modelled explicitly where their semantics
matter: `JsNum` models an ECMAScript number (including `NaN` and the
infinities, with comparison operators that are false on `NaN`), absent
object fields are modelled as `Option`, and JS truthiness checks (`!x`,
`x || d`, `limit ? _ : _`) are expanded at each use site exactly as the
source performs them.
-/

set_option autoImplicit false

namespace MCPSearch

/-! ## JavaScript number model -/

/-- An ECMAScript number as far as this codebase observes it: `NaN`, the two
infinities, or a finite value (modelled as a rational; the source only ever
does arithmetic that stays exact at this granularity). -/
inductive JsNum where
  | nan
  | posInf
  | negInf
  | num (q : Rat)
deriving Repr, DecidableEq

/-- JS `n < q` for a number `n` and a finite literal `q`: false on `NaN`. -/
def jsLtQ (n : JsNum) (q : Rat) : Bool :=
  match n with
  | JsNum.nan => false
  | JsNum.posInf => false
  | JsNum.negInf => true
  | JsNum.num x => x < q

/-- JS `n > q` for a number `n` and a finite literal `q`: false on `NaN`. -/
def jsGtQ (n : JsNum) (q : Rat) : Bool :=
  match n with
  | JsNum.nan => false
  | JsNum.posInf => true
  | JsNum.negInf => false
  | JsNum.num x => q < x

/-- JS `Math.floor`: identity on `NaN` and the infinities. -/
def jsFloor (n : JsNum) : JsNum :=
  match n with
  | JsNum.num x => JsNum.num (⌊x⌋ : Int)
  | other => other

/-! ## String helpers

The source uses `String.prototype.toLowerCase`, `String.prototype.includes`
and `String.prototype.trim`.  All strings the claims exercise are ASCII, so
the ASCII semantics of these builtins is modelled. -/

/-- ASCII lower-casing of one character (`toLowerCase` on the model names the
source handles, which are all ASCII). -/
def lowerChar (c : Char) : Char :=
  if 65 ≤ c.toNat ∧ c.toNat ≤ 90 then Char.ofNat (c.toNat + 32) else c

/-- Model of `String.prototype.toLowerCase` on ASCII strings. -/
def toLowerStr (s : String) : String :=
  String.mk (s.data.map lowerChar)

/-- Does `pat` occur at the head of `hay`? -/
def headMatch : List Char → List Char → Bool
  | [], _ => true
  | _ :: _, [] => false
  | p :: ps, c :: cs => p == c && headMatch ps cs

/-- Does `pat` occur anywhere in `hay`?  (`String.prototype.includes`.) -/
def charsContain (hay pat : List Char) : Bool :=
  match hay with
  | [] => pat.isEmpty
  | _ :: rest => headMatch pat hay || charsContain rest pat

/-- Model of `hay.includes(pat)` for strings. -/
def strIncludes (hay pat : String) : Bool :=
  charsContain hay.data pat.data

/-- Model of `String.prototype.trim` (ASCII whitespace). -/
def jsTrim (s : String) : String :=
  String.mk (((s.data.dropWhile Char.isWhitespace).reverse.dropWhile
    Char.isWhitespace).reverse)

/-! ## Cost model (`src/utils/cost-calculator.ts`) -/

structure UsageInfo where
  promptTokens : Int
  completionTokens : Int
  totalTokens : Int
deriving Repr, DecidableEq

structure ModelPricing where
  input : Rat
  output : Rat
deriving Repr, DecidableEq

structure CostFigures where
  inputCost : Rat
  outputCost : Rat
  totalCost : Rat
deriving Repr, DecidableEq

structure CostInfo where
  model : String
  usage : UsageInfo
  cost : CostFigures
  currency : String
deriving Repr, DecidableEq

/-- The static `MODEL_PRICING` table (USD per 1M tokens). -/
def MODEL_PRICING : List (String × ModelPricing) :=
  [ ("gpt-4o", ⟨5/2, 10⟩),
    ("gpt-4o-mini", ⟨3/20, 3/5⟩),
    ("gpt-4-turbo", ⟨10, 30⟩),
    ("gpt-4", ⟨30, 60⟩),
    ("gpt-3.5-turbo", ⟨1/2, 3/2⟩),
    ("gpt-4-o3", ⟨3, 12⟩),
    ("gpt-5", ⟨5, 15⟩) ]

/-- Source `isSupportedModel`: key membership in `MODEL_PRICING`. -/
def isSupportedModel (model : String) : Bool :=
  (MODEL_PRICING.lookup model).isSome

/-- Source `guessModelFromName`: ordered case-insensitive substring checks, with
`"gpt-4o"` as the final fallback. -/
def guessModelFromName (model : String) : String :=
  let lowerModel := toLowerStr model
  if strIncludes lowerModel "gpt-4o-mini" then "gpt-4o-mini"
  else if strIncludes lowerModel "gpt-4o" then "gpt-4o"
  else if strIncludes lowerModel "gpt-4-turbo" then "gpt-4-turbo"
  else if strIncludes lowerModel "gpt-4-o3" || strIncludes lowerModel "o3" then "gpt-4-o3"
  else if strIncludes lowerModel "gpt-5" then "gpt-5"
  else if strIncludes lowerModel "gpt-4" then "gpt-4"
  else if strIncludes lowerModel "gpt-3.5" || strIncludes lowerModel "turbo" then "gpt-3.5-turbo"
  else "gpt-4o"

/-- Lookup `MODEL_PRICING[m]`.  In the source the key is statically guaranteed to be
in the table; the `⟨0, 0⟩` default is dead code kept only to make the lookup
total. -/
def lookupPricing (model : String) : ModelPricing :=
  (MODEL_PRICING.lookup model).getD ⟨0, 0⟩

/-- Model of `Number(x.toFixed(6))`: rounding to 6 decimal places.  (`toFixed` rounds
to the nearest 6-decimal value; for the non-negative values produced here
that is exactly rounding half up.) -/
def roundTo6 (q : Rat) : Rat :=
  ((round (q * 1000000) : Int) : Rat) / 1000000

/-- Source `calculateCost`: resolve the model (falling back through
`guessModelFromName`), multiply token counts by per-million rates, round every
figure to 6 decimals. -/
def calculateCost (model : String) (usage : UsageInfo) : CostInfo :=
  let supportedModel := if isSupportedModel model then model else guessModelFromName model
  let pricing := lookupPricing supportedModel
  let inputCost : Rat := ((usage.promptTokens : Rat) / 1000000) * pricing.input
  let outputCost : Rat := ((usage.completionTokens : Rat) / 1000000) * pricing.output
  let totalCost : Rat := inputCost + outputCost
  { model := supportedModel
    usage := usage
    cost := { inputCost := roundTo6 inputCost
              outputCost := roundTo6 outputCost
              totalCost := roundTo6 totalCost }
    currency := "USD" }

/-! ## Error classifier (`handleOpenAIError` in `src/utils/client.ts`) -/

/-- The closed set of classified errors thrown by the client boundary.
`parseError` is the wrapped `検索レスポンスの解析エラー` message that bypasses
classification. -/
inductive ClientError where
  | parseError (message : String)
  | auth (message : String)
  | rateLimit (message : String) (retryAfter : JsNum)
  | timeout (message : String) (timeoutMs : Int)
  | network (message : String)
deriving Repr, DecidableEq

/-- The duck-typed view of a thrown upstream error: `name`, constructor name,
`message`, an optional numeric `status`, and an optional string-valued headers
record.  A `status` field of non-number type is modelled as `none` (the source
requires `typeof status === 'number'`). -/
structure UpstreamError where
  name : String
  ctorName : String
  message : String
  status : Option JsNum
  headers : Option (List (String × String))
  isOpenAIAPIError : Bool
deriving Repr, DecidableEq

/-- The `isAPIError` shape test: a genuine `OpenAI.APIError`, or an `Error`
with a numeric `status` field and an `APIError`-ish name or constructor
name. -/
def isAPIError (e : UpstreamError) : Bool :=
  e.isOpenAIAPIError ||
    (e.status.isSome &&
      (e.name == "APIError" || e.ctorName == "APIError" || e.ctorName == "MockAPIError"))

/-- JS `status === q` where `status` may be absent: false on `undefined` and
`NaN`. -/
def jsStatusEq (st : Option JsNum) (q : Rat) : Bool :=
  match st with
  | some (JsNum.num x) => x == q
  | _ => false

/-- JS `status >= q` where `status` may be absent: false on `undefined` and
`NaN`, true on `Infinity`. -/
def jsStatusGe (st : Option JsNum) (q : Rat) : Bool :=
  match st with
  | some (JsNum.num x) => q ≤ x
  | some JsNum.posInf => true
  | _ => false

/-- Model of the `retry-after` response-header lookup. -/
def lookupHeader (hs : Option (List (String × String))) (key : String) : Option String :=
  hs.bind (fun l => l.lookup key)

/-- Model of `parseInt(s, 10)`: skip leading whitespace, optional sign, then the
longest run of leading decimal digits; `NaN` when that run is empty. -/
def digitsToNat (cs : List Char) : Nat :=
  cs.foldl (fun acc c => acc * 10 + (c.toNat - 48)) 0

def parseIntBase10 (s : String) : JsNum :=
  let cs := s.data.dropWhile Char.isWhitespace
  let signed : Bool × List Char :=
    match cs with
    | '-' :: rest => (true, rest)
    | '+' :: rest => (false, rest)
    | _ => (false, cs)
  let ds := signed.2.takeWhile Char.isDigit
  if ds.isEmpty then JsNum.nan
  else if signed.1 then JsNum.num (-(digitsToNat ds : Int) : Int)
  else JsNum.num ((digitsToNat ds : Int) : Rat)

/-- Source `handleOpenAIError`, as a total classification function.  `timeoutCfg` is
`config.timeout`. -/
def handleOpenAIError (e : UpstreamError) (timeoutCfg : Int) : ClientError :=
  if isAPIError e then
    if jsStatusEq e.status 401 then
      ClientError.auth "OpenAI APIキーが無効です。OPENAI_API_KEYを確認してください。"
    else if jsStatusEq e.status 429 then
      let retrySeconds :=
        match lookupHeader e.headers "retry-after" with
        | some h => parseIntBase10 h
        | none => JsNum.num 60
      ClientError.rateLimit "OpenAI APIのレート制限に達しました。" retrySeconds
    else if jsStatusGe e.status 500 then
      ClientError.network "OpenAI APIサーバーエラーが発生しました。"
    else
      ClientError.network ("OpenAI API エラー: " ++ e.message)
  else
    if e.name == "AbortError" || strIncludes e.message "timeout" then
      ClientError.timeout "リクエストがタイムアウトしました" timeoutCfg
    else if strIncludes e.message "network" || strIncludes e.message "ECONNREFUSED" then
      ClientError.network "ネットワーク接続エラーが発生しました。"
    else
      ClientError.network "予期しないエラーが発生しました。"

/-! ## Response normalizer (`parseSearchResponse` in `src/utils/client.ts`) -/

/-- One entry of the parsed `results` array.  Fields are optional exactly
because the upstream JSON may omit them. -/
structure RawResult where
  title : Option String
  url : Option String
  description : Option String
  date : Option String
  score : Option Rat
deriving Repr, DecidableEq

/-- The JSON payload as produced by `JSON.parse` and consumed by the
normalizer: a possibly-missing `results` array and a possibly-missing numeric
`totalCount`. -/
structure ParsedPayload where
  results : Option (List RawResult)
  totalCount : Option Int
deriving Repr, DecidableEq

/-- The normalized `ChatGPTSearchResponse`. -/
structure SearchResponseN where
  results : List RawResult
  totalCount : Int
  cost : Option CostInfo
deriving Repr, DecidableEq

/-- The raw chat completion as observed by the normalizer:
`choices[0]?.message?.content`, `usage`, `model`. -/
structure Completion where
  content : Option String
  usage : Option UsageInfo
  model : String
deriving Repr, DecidableEq

/-- The `!content` truthiness check: absent or empty string is falsy. -/
def contentOf (c : Completion) : Option String :=
  match c.content with
  | none => none
  | some s => if s = "" then none else some s

/-- Model of the greedy brace regex match: the span from the first `'{'`
to the last `'}'`, when the first `'{'` lies strictly before the last `'}'`.
Implemented as: drop to the first `'{'`, then cut after the last `'}'`. -/
def dropToBrace : List Char → Option (List Char)
  | [] => none
  | c :: rest => if c = '{' then some (c :: rest) else dropToBrace rest

def dropToClose : List Char → Option (List Char)
  | [] => none
  | c :: rest => if c = '}' then some (c :: rest) else dropToClose rest

def extractBraceSpan (cs : List Char) : Option (List Char) :=
  (dropToBrace cs).bind (fun t => (dropToClose t.reverse).map List.reverse)

/-- JS `v || d` for a possibly-absent number `v` (absent, `0` are falsy). -/
def jsOrInt (v : Option Int) (d : Int) : Int :=
  match v with
  | some n => if n == 0 then d else n
  | none => d

/-- JS `v || d` for a possibly-absent string `v` (absent, `""` are falsy). -/
def jsOrStr (v : Option String) (d : String) : String :=
  match v with
  | some s => if s = "" then d else s
  | none => d

/-- Source `parseSearchResponse`.  `jsonParse` stands for the `JSON.parse` builtin
followed by the source's cast to `ChatGPTSearchResponse`; `none` models a
parse throw.  Failures are the parse-error messages the source throws; the
per-entry missing-field check only logs a warning and is behaviour-free. -/
def parseSearchResponse (jsonParse : String → Option ParsedPayload)
    (c : Completion) : Except String SearchResponseN :=
  match contentOf c with
  | none => Except.error "検索レスポンスが空です"
  | some content =>
    match extractBraceSpan content.data with
    | none => Except.error "有効なJSON形式の応答が見つかりません"
    | some span =>
      match jsonParse (String.mk span) with
      | none => Except.error "JSONの構文解析に失敗しました"
      | some payload =>
        match payload.results with
        | none => Except.error "無効な検索結果形式です"
        | some results =>
          Except.ok
            { results := results
              totalCount := jsOrInt payload.totalCount (results.length : Int)
              cost := c.usage.map (fun u => calculateCost c.model u) }

/-- The outcome of the raw upstream chat call. -/
inductive UpstreamOutcome where
  | success (c : Completion)
  | failure (e : UpstreamError)
deriving Repr, DecidableEq

/-- The client `search` error routing: on a transport-level success the
completion is normalized, and a normalization failure is wrapped with the
`検索レスポンスの解析エラー` prefix and rethrown untouched past the outer
catch (the source recognises it by that message prefix); on a transport-level
failure the error goes through `handleOpenAIError`. -/
def clientSearch (jsonParse : String → Option ParsedPayload)
    (outcome : UpstreamOutcome) (timeoutCfg : Int) :
    Except ClientError SearchResponseN :=
  match outcome with
  | UpstreamOutcome.failure e => Except.error (handleOpenAIError e timeoutCfg)
  | UpstreamOutcome.success c =>
    match parseSearchResponse jsonParse c with
    | Except.ok r => Except.ok r
    | Except.error msg =>
      Except.error (ClientError.parseError ("検索レスポンスの解析エラー: " ++ msg))

/-- Discriminates the parse-error variant from the four transport-classified
variants (`auth`, `rateLimit`, `timeout`, `network`). -/
def isParseError : Except ClientError SearchResponseN → Bool
  | Except.error (ClientError.parseError _) => true
  | _ => false

/-! ## Search orchestrator (`src/services/search.ts`) -/

/-- The caller-facing result shape.  `url` is typed `string` in the source but
at runtime simply passes the (possibly absent) upstream value through, which
is what the claims are about, so it is kept optional here. -/
structure SearchResult where
  title : String
  url : Option String
  snippet : String
  publishedDate : Option String
  relevanceScore : Option Rat
deriving Repr, DecidableEq

/-- The per-entry projection inside `transformResults`. -/
def projectResult (item : RawResult) : SearchResult :=
  { title := jsOrStr item.title "タイトルなし"
    url := item.url
    snippet := jsOrStr item.description ""
    publishedDate := item.date
    relevanceScore := item.score }

/-- JS `slice(0, n)` (negative `n` counts from the end). -/
def jsSliceTo {α : Type} (l : List α) (n : Int) : List α :=
  if n < 0 then l.take (l.length - n.natAbs) else l.take n.toNat

/-- Source `transformResults(response, limit?)`.  The validated params always carry
an integer limit, so `limit` is modelled as `Option Int`; `limit ? _ : _`
means absent and `0` leave the list untruncated. -/
def transformResults (response : SearchResponseN) (limit : Option Int) :
    List SearchResult :=
  if response.results.length = 0 then []
  else
    let results := response.results.map projectResult
    match limit with
    | some n => if n = 0 then results else jsSliceTo results n
    | none => results

/-! ## Retry loop (`searchWithRetry` in `src/services/search.ts`)

The loop is embedded over an abstract attempt-indexed operation
`op : Nat → Except E α` (attempt numbers start at 1, as in the source).  The
outcome records the propagated result, how many times the operation ran, and
the milliseconds slept between attempts.  `Except.error none` models the
`throw lastError!` reached with `lastError` still unassigned (only possible
when `maxRetries = 0`). -/

structure RetryOutcome (E α : Type) where
  result : Except (Option E) α
  calls : Nat
  delays : List Nat
deriving Repr

/-- The inter-attempt sleep: `Math.min(1000 * 2 ** (attempt - 1), 10000)`. -/
def backoffDelay (attempt : Nat) : Nat :=
  min (1000 * 2 ^ (attempt - 1)) 10000

/-- One pass of the `for (attempt = 1; attempt <= maxRetries; ...)` loop.
`fuel` is the number of loop iterations left (`maxRetries + 1 - attempt` at
every reachable call), so the recursion is structural; the `attempt <
maxRetries` test guarding the sleep-and-continue is the source's own. -/
def retryAux {E α : Type} (op : Nat → Except E α) (maxRetries attempt : Nat) :
    Nat → RetryOutcome E α
  | 0 => ⟨Except.error none, 0, []⟩
  | fuel + 1 =>
    match op attempt with
    | Except.ok v => ⟨Except.ok v, 1, []⟩
    | Except.error e =>
      if attempt < maxRetries then
        let rest := retryAux op maxRetries (attempt + 1) fuel
        ⟨rest.result, rest.calls + 1, backoffDelay attempt :: rest.delays⟩
      else ⟨Except.error (some e), 1, []⟩

/-- Source `searchWithRetry(params, maxRetries)`, with the per-attempt
`executeSearch` call abstracted as `op`.  Note: the catch block stores the
error and retries unconditionally — no classification of the error ever
happens here. -/
def searchWithRetry {E α : Type} (op : Nat → Except E α) (maxRetries : Nat) :
    RetryOutcome E α :=
  retryAux op maxRetries 1 maxRetries

/-! ## Parameter validation (`validateSearchParams`) -/

/-- A JavaScript value as far as the validator inspects one. -/
inductive JsVal where
  | vStr (s : String)
  | vNum (n : JsNum)
  | vBool (b : Bool)
  | vNull
deriving Repr, DecidableEq

/-- The untrusted argument record; `none` is an absent (`undefined`) field. -/
structure RawArgs where
  query : Option JsVal
  limit : Option JsVal
  language : Option JsVal
  timeframe : Option JsVal
deriving Repr, DecidableEq

/-- The validated `SearchParams`.  `limit` stays a `JsNum` because the source
stores `Math.floor(params.limit)` whatever number arrived. -/
structure SearchParamsV where
  query : String
  limit : JsNum
  language : String
  timeframe : Option String
deriving Repr, DecidableEq

def validLanguages : List String :=
  ["auto", "ja", "en", "zh", "ko", "fr", "de", "es", "it", "pt", "ru"]

def validTimeframes : List String :=
  ["recent", "past_week", "past_month", "past_year"]

/-- The `limit` block: default 10, reject non-numbers, reject values outside
`[1, 50]` (JS comparisons — false on `NaN`), then `Math.floor`. -/
def validateLimit (v : Option JsVal) : Except String JsNum :=
  match v with
  | none => Except.ok (JsNum.num 10)
  | some (JsVal.vNum n) =>
    if jsLtQ n 1 || jsGtQ n 50 then
      Except.error "limitは1から50の範囲で指定してください"
    else Except.ok (jsFloor n)
  | some _ => Except.error "limitは数値である必要があります"

/-- The `language` block: default `"auto"`, reject non-strings and strings
outside the fixed 11-value list. -/
def validateLanguage (v : Option JsVal) : Except String String :=
  match v with
  | none => Except.ok "auto"
  | some (JsVal.vStr s) =>
    if s ∈ validLanguages then Except.ok s
    else Except.error "languageは次のいずれかである必要があります"
  | some _ => Except.error "languageは文字列である必要があります"

/-- The `timeframe` block: optional, reject non-strings and strings outside
the fixed 4-value list. -/
def validateTimeframe (v : Option JsVal) : Except String (Option String) :=
  match v with
  | none => Except.ok none
  | some (JsVal.vStr s) =>
    if s ∈ validTimeframes then Except.ok (some s)
    else Except.error "timeframeは次のいずれかである必要があります"
  | some _ => Except.error "timeframeは文字列である必要があります"

/-- Source `validateSearchParams`.  `none` input models both `null`/`undefined` and
non-object arguments (the source rejects all of them with the same error
before reading any field).  The query checks mirror the source order:
truthy-string check, trimmed-emptiness check, length check. -/
def validateSearchParams (args : Option RawArgs) : Except String SearchParamsV :=
  match args with
  | none => Except.error "検索パラメータは必須です"
  | some params =>
    match params.query with
    | some (JsVal.vStr q) =>
      if q = "" then Except.error "検索クエリは必須の文字列です"
      else if (jsTrim q).length = 0 then Except.error "検索クエリが空です"
      else if 500 < q.length then Except.error "検索クエリは500文字以内で入力してください"
      else
        match validateLimit params.limit with
        | Except.error e => Except.error e
        | Except.ok lim =>
          match validateLanguage params.language with
          | Except.error e => Except.error e
          | Except.ok lang =>
            match validateTimeframe params.timeframe with
            | Except.error e => Except.error e
            | Except.ok tf => Except.ok ⟨jsTrim q, lim, lang, tf⟩
    | _ => Except.error "検索クエリは必須の文字列です"

/-! ## Concrete fixtures used by witnesses and counterexamples -/

/-- Constant `executeSearch` failure with an `AuthError`-shaped error. -/
def authFailOp : Nat → Except ClientError (List SearchResult) :=
  fun _ => Except.error (ClientError.auth "OpenAI APIキーが無効です。OPENAI_API_KEYを確認してください。")

/-- First attempt fails with a RateLimit error carrying `retryAfter = 100`,
second attempt succeeds. -/
def rateLimitThenOkOp : Nat → Except ClientError (List SearchResult) :=
  fun attempt =>
    if attempt = 1 then
      Except.error (ClientError.rateLimit "OpenAI APIのレート制限に達しました。" (JsNum.num 100))
    else Except.ok []

/-- A 429 API error whose `retry-after` header is not parsable as a number. -/
def err429BadHeader : UpstreamError :=
  ⟨"APIError", "APIError", "Rate limit exceeded", some (JsNum.num 429),
    some [("retry-after", "abc")], false⟩

/-- A 429 API error whose `retry-after` header is `"7"`. -/
def err429Header7 : UpstreamError :=
  ⟨"APIError", "APIError", "Rate limit exceeded", some (JsNum.num 429),
    some [("retry-after", "7")], false⟩

def lbrace : String := String.singleton '{'
def rbrace : String := String.singleton '}'

/-- The completion text `{"results":[{"title":"T","url":"u"}],"totalCount":0}`. -/
def c4content : String :=
  lbrace ++ "\"results\":[" ++ lbrace ++ "\"title\":\"T\",\"url\":\"u\"" ++ rbrace ++
    "],\"totalCount\":0" ++ rbrace

/-- What `JSON.parse` returns on `c4content`: one result entry and
`totalCount: 0`. -/
def c4payload : ParsedPayload :=
  ⟨some [⟨some "T", some "u", none, none, none⟩], some 0⟩

/-- A `JSON.parse` oracle that is faithful on the one string the fixtures
feed it. -/
def c4jp : String → Option ParsedPayload :=
  fun s => if s = c4content then some c4payload else none

/-- Three upstream entries: a full one, one with an empty title, one with a
missing title and empty url. -/
def respThree : SearchResponseN :=
  ⟨[⟨some "A", some "a", some "d1", none, none⟩,
    ⟨some "", some "b", none, some "2024-01-01", none⟩,
    ⟨none, some "", none, none, some (1/2)⟩], 3, none⟩

/-- Observer: is this JS number a finite numeric value at all?  (`NaN` and the
infinities are not, so in particular they are no integer in `[1, 50]`.) -/
def isFiniteNum : JsNum → Bool
  | JsNum.num _ => true
  | _ => false

/-- Arguments whose `limit` is `NaN`. -/
def nanLimitArgs : RawArgs :=
  ⟨some (JsVal.vStr "hello"), some (JsVal.vNum JsNum.nan), none, none⟩

/-- Well-formed arguments with a fractional in-range `limit`. -/
def goodArgs : RawArgs :=
  ⟨some (JsVal.vStr " hi "), some (JsVal.vNum (JsNum.num (5/2))),
    some (JsVal.vStr "ja"), some (JsVal.vStr "recent")⟩

/-! ## Helper lemmas -/

theorem guessModelFromName_supported (m : String) :
    isSupportedModel (guessModelFromName m) = true := by
  simp only [guessModelFromName]
  split_ifs <;> decide

theorem lookupPricing_input_nonneg (m : String) : 0 ≤ (lookupPricing m).input := by
  unfold lookupPricing MODEL_PRICING
  simp only [List.lookup]
  repeat' split
  all_goals norm_num [Option.getD]

theorem lookupPricing_output_nonneg (m : String) : 0 ≤ (lookupPricing m).output := by
  unfold lookupPricing MODEL_PRICING
  simp only [List.lookup]
  repeat' split
  all_goals norm_num [Option.getD]

theorem roundTo6_nonneg {q : Rat} (h : 0 ≤ q) : 0 ≤ roundTo6 q := by
  unfold roundTo6
  have h1 : (0 : Int) ≤ round (q * 1000000) := by
    rw [round_eq, Int.le_floor]
    push_cast
    linarith
  exact div_nonneg (by exact_mod_cast h1) (by norm_num)

theorem roundTo6_sixdec (q : Rat) : ∃ k : Int, roundTo6 q = (k : Rat) / 1000000 :=
  ⟨round (q * 1000000), rfl⟩

/-! ## Claim theorems -/

/-- C8: every model-name string containing `"gpt-4o-mini"` case-insensitively
resolves to the canonical `"gpt-4o-mini"` identifier, not the more generic
`"gpt-4o"` — the mini-variant check comes first. -/
theorem guessModel_mini_before_base (s : String)
    (h : strIncludes (toLowerStr s) "gpt-4o-mini" = true) :
    guessModelFromName s = "gpt-4o-mini" := by
  simp only [guessModelFromName]
  rw [if_pos h]

/-- Witness for C8: in particular `guessModel("gpt-4o-mini") = "gpt-4o-mini"`. -/
theorem guessModel_mini_before_base_witness :
    strIncludes (toLowerStr "gpt-4o-mini") "gpt-4o-mini" = true ∧
    guessModelFromName "gpt-4o-mini" = "gpt-4o-mini" :=
  ⟨by decide, guessModel_mini_before_base "gpt-4o-mini" (by decide)⟩

/-- C9: for every model-identifier string (including `""`) and every usage
record with non-negative token counts, `calculateCost` returns normally —
resolving unsupported names to a supported pricing-table key — and all three
cost figures are non-negative integer multiples of `10⁻⁶` (rounded to 6
decimal places). -/
theorem calculateCost_safe (model : String) (usage : UsageInfo)
    (hp : 0 ≤ usage.promptTokens) (hc : 0 ≤ usage.completionTokens) :
    isSupportedModel (calculateCost model usage).model = true ∧
    0 ≤ (calculateCost model usage).cost.inputCost ∧
    0 ≤ (calculateCost model usage).cost.outputCost ∧
    0 ≤ (calculateCost model usage).cost.totalCost ∧
    (∃ k : Int, (calculateCost model usage).cost.inputCost = (k : Rat) / 1000000) ∧
    (∃ k : Int, (calculateCost model usage).cost.outputCost = (k : Rat) / 1000000) ∧
    (∃ k : Int, (calculateCost model usage).cost.totalCost = (k : Rat) / 1000000) := by
  have hpq : (0 : Rat) ≤ (usage.promptTokens : Rat) := by exact_mod_cast hp
  have hcq : (0 : Rat) ≤ (usage.completionTokens : Rat) := by exact_mod_cast hc
  simp only [calculateCost]
  refine ⟨?_, ?_, ?_, ?_, roundTo6_sixdec _, roundTo6_sixdec _, roundTo6_sixdec _⟩
  · by_cases hs : isSupportedModel model
    · simp [hs]
    · simp [hs, guessModelFromName_supported]
  · exact roundTo6_nonneg (mul_nonneg (div_nonneg hpq (by norm_num))
      (lookupPricing_input_nonneg _))
  · exact roundTo6_nonneg (mul_nonneg (div_nonneg hcq (by norm_num))
      (lookupPricing_output_nonneg _))
  · exact roundTo6_nonneg (add_nonneg
      (mul_nonneg (div_nonneg hpq (by norm_num)) (lookupPricing_input_nonneg _))
      (mul_nonneg (div_nonneg hcq (by norm_num)) (lookupPricing_output_nonneg _)))

/-- Witness for C9 at the unsupported empty-string model name. -/
theorem calculateCost_safe_witness :
    isSupportedModel (calculateCost "" ⟨1000, 500, 1500⟩).model = true ∧
    0 ≤ (calculateCost "" ⟨1000, 500, 1500⟩).cost.inputCost ∧
    0 ≤ (calculateCost "" ⟨1000, 500, 1500⟩).cost.outputCost ∧
    0 ≤ (calculateCost "" ⟨1000, 500, 1500⟩).cost.totalCost ∧
    (∃ k : Int, (calculateCost "" ⟨1000, 500, 1500⟩).cost.inputCost = (k : Rat) / 1000000) ∧
    (∃ k : Int, (calculateCost "" ⟨1000, 500, 1500⟩).cost.outputCost = (k : Rat) / 1000000) ∧
    (∃ k : Int, (calculateCost "" ⟨1000, 500, 1500⟩).cost.totalCost = (k : Rat) / 1000000) :=
  calculateCost_safe "" ⟨1000, 500, 1500⟩ (by norm_num) (by norm_num)

/-- C6: with a limit `n` in `[1, 50]` and an upstream response holding at
least `n` entries, the transformed list is exactly the first `n` projected
entries in their original order. -/
theorem transformResults_truncates (resp : SearchResponseN) (n : Int)
    (h1 : 1 ≤ n) (h2 : n ≤ 50) (h3 : n ≤ (resp.results.length : Int)) :
    transformResults resp (some n) = (resp.results.map projectResult).take n.toNat ∧
    (transformResults resp (some n)).length = n.toNat := by
  have hne : ¬ resp.results.length = 0 := by
    intro h0
    rw [h0] at h3
    omega
  have hn0 : ¬ n = 0 := by omega
  have hnlt : ¬ n < 0 := by omega
  have heq : transformResults resp (some n) =
      (resp.results.map projectResult).take n.toNat := by
    simp only [transformResults, jsSliceTo]
    rw [if_neg hne, if_neg hn0, if_neg hnlt]
  refine ⟨heq, ?_⟩
  rw [heq, List.length_take, List.length_map]
  omega

/-- Witness for C6: limit 2 against three upstream entries keeps the first
two, in order. -/
theorem transformResults_truncates_witness :
    transformResults respThree (some 2) =
      (respThree.results.map projectResult).take (2 : Int).toNat ∧
    (transformResults respThree (some 2)).length = (2 : Int).toNat :=
  transformResults_truncates respThree 2 (by norm_num) (by norm_num) (by decide)

/-- C7: the untruncated projection keeps every upstream entry (the projected
list has exactly the upstream length, and is the entrywise image of
`projectResult`); an entry with a missing or empty title gets the placeholder
title instead of being dropped, and the (possibly empty) url passes through
unfiltered. -/
theorem transformResults_keeps_entries (resp : SearchResponseN) :
    (transformResults resp none).length = resp.results.length ∧
    transformResults resp none = resp.results.map projectResult ∧
    (∀ item : RawResult,
      (projectResult item).title =
        match item.title with
        | some t => if t = "" then "タイトルなし" else t
        | none => "タイトルなし") ∧
    (∀ item : RawResult, (projectResult item).url = item.url) := by
  have heq : transformResults resp none = resp.results.map projectResult := by
    simp only [transformResults]
    split_ifs with h0
    · rw [List.length_eq_zero.mp h0]
      rfl
    · rfl
  refine ⟨by rw [heq, List.length_map], heq, ?_, fun _ => rfl⟩
  intro item
  rcases h : item.title with _ | t <;> simp [projectResult, jsOrStr, h]

/-- C1 (code behaviour at the failing input): `searchWithRetry` with an
operation that always fails with an `AuthError`-classified error and
`maxRetries = 3` invokes the operation 3 times and sleeps the exponential
backoff twice — it never fail-fasts on the `Auth` classification, contrary to
the claim (and to the repository's own integration test, which expects exactly
one invocation). -/
theorem searchWithRetry_auth_retries_anyway :
    (searchWithRetry authFailOp 3).calls = 3 ∧
    (searchWithRetry authFailOp 3).delays = [1000, 2000] ∧
    (searchWithRetry authFailOp 3).result =
      Except.error (some (ClientError.auth
        "OpenAI APIキーが無効です。OPENAI_API_KEYを確認してください。")) :=
  ⟨by decide, by decide, rfl⟩

/-- C2 (code behaviour at the failing input): when the first attempt fails
with a `RateLimit` error carrying `retryAfter = 100`, the wait before the
second attempt is the exponential-backoff 1000 ms, not `100 * 1000` ms — the
retry loop never reads `retryAfter`, contrary to the claim (and to the
repository's own integration test, which expects a delay of about the
`retryAfter` amount). -/
theorem searchWithRetry_ratelimit_ignores_retryAfter :
    (searchWithRetry rateLimitThenOkOp 3).delays = [1000] ∧
    (searchWithRetry rateLimitThenOkOp 3).calls = 2 ∧
    (1000 : Nat) ≠ 100 * 1000 := by
  decide

/-- C3 counterexample: a 429 error whose `retry-after` header is present but
not parsable as a number yields `retryAfterSeconds = NaN`, not the claimed
default of 60 (`parseInt("abc", 10)` is `NaN` and the code only defaults when
the header is absent). -/
theorem handle429_unparsable_header_not_60 :
    handleOpenAIError err429BadHeader 30000 =
      ClientError.rateLimit "OpenAI APIのレート制限に達しました。" JsNum.nan ∧
    JsNum.nan ≠ JsNum.num 60 := by
  decide

/-- C3 (amended): for every API-shaped error with numeric status 429, the
classifier produces a RateLimit error; `retryAfterSeconds` is 60 when the
`retry-after` header is absent, and is `parseInt(header, 10)` — which is `NaN`
when the header is not parsable as a number — when it is present. -/
theorem handle429_retryAfter (e : UpstreamError) (t : Int)
    (hshape : isAPIError e = true)
    (hst : e.status = some (JsNum.num 429)) :
    (lookupHeader e.headers "retry-after" = none →
      handleOpenAIError e t =
        ClientError.rateLimit "OpenAI APIのレート制限に達しました。" (JsNum.num 60)) ∧
    (∀ s, lookupHeader e.headers "retry-after" = some s →
      handleOpenAIError e t =
        ClientError.rateLimit "OpenAI APIのレート制限に達しました。" (parseIntBase10 s)) := by
  constructor
  · intro hnone
    simp [handleOpenAIError, hshape, hst, jsStatusEq, hnone]
  · intro s hs
    simp [handleOpenAIError, hshape, hst, jsStatusEq, hs]

/-- Witness for C3 (amended) at a parsable header `"7"`. -/
theorem handle429_retryAfter_witness :
    lookupHeader err429Header7.headers "retry-after" = some "7" ∧
    handleOpenAIError err429Header7 30000 =
      ClientError.rateLimit "OpenAI APIのレート制限に達しました。" (parseIntBase10 "7") :=
  ⟨by decide,
    (handle429_retryAfter err429Header7 30000 (by decide) (by decide)).2 "7" (by decide)⟩

/-- No `'{'` in the text means the brace-span regex cannot match. -/
theorem dropToBrace_of_no_brace {cs : List Char} (h : '{' ∉ cs) :
    dropToBrace cs = none := by
  induction cs with
  | nil => rfl
  | cons c rest ih =>
    simp only [List.mem_cons, not_or] at h
    simp only [dropToBrace]
    rw [if_neg (fun hc => h.1 hc.symm), ih h.2]

/-- C5: a transport-level success whose content holds no JSON braces fails as
a wrapped parse error — never as one of the transport-classified variants. -/
theorem prose_yields_parse_error (jp : String → Option ParsedPayload)
    (c : Completion) (t : Int)
    (h : ∀ s, c.content = some s → '{' ∉ s.data) :
    isParseError (clientSearch jp (UpstreamOutcome.success c) t) = true := by
  rcases hc : c.content with _ | s
  · simp [clientSearch, parseSearchResponse, contentOf, hc, isParseError]
  · by_cases hemp : s = ""
    · simp [clientSearch, parseSearchResponse, contentOf, hc, hemp, isParseError]
    · have hb : dropToBrace s.data = none := dropToBrace_of_no_brace (h s hc)
      simp [clientSearch, parseSearchResponse, contentOf, hc, hemp,
        extractBraceSpan, hb, isParseError]

/-- Witness for C5 on a plain-prose completion. -/
theorem prose_yields_parse_error_witness :
    isParseError (clientSearch (fun _ => none)
      (UpstreamOutcome.success ⟨some "no json here, sorry", none, "gpt-4o"⟩)
      30000) = true :=
  prose_yields_parse_error (fun _ => none)
    ⟨some "no json here, sorry", none, "gpt-4o"⟩ 30000
    (by
      intro s hs
      injection hs with h1
      rw [← h1]
      decide)

/-- C4 counterexample: a completion whose extracted JSON carries one result
entry and `totalCount: 0` normalizes to `totalCount = 1` (the entry count),
not the parsed value 0 — `parsed.totalCount || results.length` treats the
present value 0 as absent. -/
theorem parse_totalCount_zero_counterexample :
    parseSearchResponse c4jp ⟨some c4content, none, "gpt-4o"⟩ =
      Except.ok ⟨[⟨some "T", some "u", none, none, none⟩], 1, none⟩ ∧
    (1 : Int) ≠ 0 :=
  ⟨rfl, by decide⟩

/-- C4 (amended): when the extracted payload has a `results` array, the
normalized `totalCount` equals the parsed `totalCount` whenever that field is
present *and non-zero*, and equals `results.length` when the field is absent
or zero. -/
theorem parse_totalCount_amended (jp : String → Option ParsedPayload)
    (c : Completion) (s : String) (span : List Char) (payload : ParsedPayload)
    (rs : List RawResult)
    (hc : c.content = some s) (hs : s ≠ "")
    (hspan : extractBraceSpan s.data = some span)
    (hjp : jp (String.mk span) = some payload)
    (hrs : payload.results = some rs) :
    (∀ n : Int, payload.totalCount = some n → n ≠ 0 →
      parseSearchResponse jp c =
        Except.ok ⟨rs, n, c.usage.map (fun u => calculateCost c.model u)⟩) ∧
    ((payload.totalCount = none ∨ payload.totalCount = some 0) →
      parseSearchResponse jp c =
        Except.ok ⟨rs, (rs.length : Int), c.usage.map (fun u => calculateCost c.model u)⟩) := by
  have hparse : parseSearchResponse jp c =
      Except.ok ⟨rs, jsOrInt payload.totalCount (rs.length : Int),
        c.usage.map (fun u => calculateCost c.model u)⟩ := by
    simp [parseSearchResponse, contentOf, hc, hs, hspan, hjp, hrs]
  constructor
  · intro n hn hne
    rw [hparse]
    simp [jsOrInt, hn, hne]
  · rintro (h0 | h0) <;> rw [hparse] <;> simp [jsOrInt, h0]

/-- Witness for C4 (amended): with `totalCount: 0` and one entry the
normalized count is the entry count 1. -/
theorem parse_totalCount_amended_witness :
    parseSearchResponse c4jp ⟨some c4content, none, "gpt-4o"⟩ =
      Except.ok ⟨[⟨some "T", some "u", none, none, none⟩], 1, none⟩ :=
  (parse_totalCount_amended c4jp ⟨some c4content, none, "gpt-4o"⟩ c4content
      c4content.data c4payload [⟨some "T", some "u", none, none, none⟩]
      rfl (by decide) (by decide) rfl rfl).2 (Or.inr rfl)

/-- Trimming never lengthens a string. -/
theorem jsTrim_length_le (s : String) : (jsTrim s).length ≤ s.length := by
  have hdw : ∀ (l : List Char), (l.dropWhile Char.isWhitespace).length ≤ l.length :=
    fun _ => (List.dropWhile_sublist Char.isWhitespace).length_le
  show (String.mk _).length ≤ s.length
  calc (((s.data.dropWhile Char.isWhitespace).reverse.dropWhile
          Char.isWhitespace).reverse).length
      = ((s.data.dropWhile Char.isWhitespace).reverse.dropWhile
          Char.isWhitespace).length := List.length_reverse _
    _ ≤ (s.data.dropWhile Char.isWhitespace).reverse.length := hdw _
    _ = (s.data.dropWhile Char.isWhitespace).length := List.length_reverse _
    _ ≤ s.data.length := hdw _

/-- The `limit` block, given a non-`NaN` input, only succeeds with an integer
in `[1, 50]`. -/
theorem validateLimit_ok_int (v : Option JsVal) (lim : JsNum)
    (hnan : v ≠ some (JsVal.vNum JsNum.nan))
    (h : validateLimit v = Except.ok lim) :
    ∃ k : Int, lim = JsNum.num (k : Rat) ∧ 1 ≤ k ∧ k ≤ 50 := by
  rcases v with _ | val
  · simp only [validateLimit] at h
    injection h with h1
    exact ⟨10, by rw [← h1]; norm_num, by norm_num, by norm_num⟩
  · rcases val with s | n | b | _
    · simp [validateLimit] at h
    · rcases n with _ | _ | _ | q
      · exact absurd rfl hnan
      · simp [validateLimit, jsLtQ, jsGtQ] at h
      · simp [validateLimit, jsLtQ, jsGtQ] at h
      · simp only [validateLimit, jsLtQ, jsGtQ] at h
        split_ifs at h with hcond
        injection h with h1
        have hb : ¬(q < 1 ∨ 50 < q) := by
          intro hor
          apply hcond
          rcases hor with h' | h' <;> simp [h']
        push_neg at hb
        refine ⟨⌊q⌋, by rw [← h1]; rfl, ?_, ?_⟩
        · rw [Int.le_floor]
          exact_mod_cast hb.1
        · have := (Int.floor_le q).trans hb.2
          exact_mod_cast this
    · simp [validateLimit] at h
    · simp [validateLimit] at h

/-- The `language` block only succeeds with a member of the 11-value enum. -/
theorem validateLanguage_ok_mem (v : Option JsVal) (lang : String)
    (h : validateLanguage v = Except.ok lang) : lang ∈ validLanguages := by
  rcases v with _ | val
  · simp only [validateLanguage] at h
    injection h with h1
    rw [← h1]
    decide
  · rcases val with s | _ | _ | _
    · simp only [validateLanguage] at h
      split_ifs at h with hmem
      injection h with h1
      rw [← h1]
      exact hmem
    · simp [validateLanguage] at h
    · simp [validateLanguage] at h
    · simp [validateLanguage] at h

/-- The `timeframe` block only succeeds with `none` or a member of the 4-value
enum. -/
theorem validateTimeframe_ok_mem (v : Option JsVal) (tf : Option String)
    (h : validateTimeframe v = Except.ok tf) :
    ∀ t, tf = some t → t ∈ validTimeframes := by
  rcases v with _ | val
  · simp only [validateTimeframe] at h
    injection h with h1
    intro t ht
    rw [← h1] at ht
    exact absurd ht (by simp)
  · rcases val with s | _ | _ | _
    · simp only [validateTimeframe] at h
      split_ifs at h with hmem
      injection h with h1
      intro t ht
      rw [← h1] at ht
      injection ht with h2
      rw [← h2]
      exact hmem
    · simp [validateTimeframe] at h
    · simp [validateTimeframe] at h
    · simp [validateTimeframe] at h

/-- C10 counterexample: `limit = NaN` passes the range check (`NaN < 1` and
`NaN > 50` are both false), `Math.floor(NaN)` is `NaN`, and the validator
returns a params record whose `limit` is `NaN` — not an integer in
`[1, 50]`. -/
theorem validateSearchParams_nan_limit :
    validateSearchParams (some nanLimitArgs) =
      Except.ok ⟨"hello", JsNum.nan, "auto", none⟩ ∧
    isFiniteNum (⟨"hello", JsNum.nan, "auto", none⟩ : SearchParamsV).limit = false :=
  ⟨rfl, rfl⟩

/-- C10 (amended): for every untrusted input on which `validateSearchParams`
returns *and whose `limit`, if a number, is not `NaN`*, the result satisfies
the invariant: `query` is the trimmed original, non-empty and at most 500
characters; `limit` is an integer in `[1, 50]`, obtained by flooring any
finite in-range numeric input (non-integers are accepted, not rejected);
`language` belongs to the 11-value enum (defaulting to `"auto"`); and
`timeframe`, when present, belongs to the 4-value enum. -/
theorem validateSearchParams_invariant (a : RawArgs) (p : SearchParamsV)
    (hnan : a.limit ≠ some (JsVal.vNum JsNum.nan))
    (h : validateSearchParams (some a) = Except.ok p) :
    (∃ s, a.query = some (JsVal.vStr s) ∧ p.query = jsTrim s) ∧
    p.query ≠ "" ∧
    p.query.length ≤ 500 ∧
    (∃ k : Int, p.limit = JsNum.num (k : Rat) ∧ 1 ≤ k ∧ k ≤ 50) ∧
    (∀ q : Rat, a.limit = some (JsVal.vNum (JsNum.num q)) →
      p.limit = JsNum.num ((⌊q⌋ : Int) : Rat)) ∧
    p.language ∈ validLanguages ∧
    (∀ t, p.timeframe = some t → t ∈ validTimeframes) := by
  simp only [validateSearchParams] at h
  split at h
  · rename_i q hq
    split_ifs at h with h1 h2 h3
    split at h
    · simp at h
    · rename_i lim hlim
      split at h
      · simp at h
      · rename_i lang hlang
        split at h
        · simp at h
        · rename_i tf htf
          injection h with hp
          subst hp
          refine ⟨⟨q, hq, rfl⟩, ?_, ?_, validateLimit_ok_int a.limit lim hnan hlim, ?_,
            validateLanguage_ok_mem a.language lang hlang,
            validateTimeframe_ok_mem a.timeframe tf htf⟩
          · intro h0
            apply h2
            have h0' : jsTrim q = "" := h0
            rw [h0']
            rfl
          · exact le_trans (jsTrim_length_le q) (by omega)
          · intro qq hqq
            rw [hqq] at hlim
            simp only [validateLimit] at hlim
            split_ifs at hlim with hc
            injection hlim with hl
            exact hl.symm
  · simp at h

/-- Witness for C10 (amended): a padded query and the fractional limit `2.5`
are accepted; the returned record is `{query: "hi", limit: 2, language: "ja",
timeframe: "recent"}` and satisfies the invariant. -/
theorem validateSearchParams_invariant_witness :
    (∃ s, goodArgs.query = some (JsVal.vStr s) ∧
      (⟨"hi", JsNum.num 2, "ja", some "recent"⟩ : SearchParamsV).query = jsTrim s) ∧
    (⟨"hi", JsNum.num 2, "ja", some "recent"⟩ : SearchParamsV).query ≠ "" ∧
    (⟨"hi", JsNum.num 2, "ja", some "recent"⟩ : SearchParamsV).query.length ≤ 500 ∧
    (∃ k : Int, (⟨"hi", JsNum.num 2, "ja", some "recent"⟩ : SearchParamsV).limit =
      JsNum.num (k : Rat) ∧ 1 ≤ k ∧ k ≤ 50) ∧
    (∀ q : Rat, goodArgs.limit = some (JsVal.vNum (JsNum.num q)) →
      (⟨"hi", JsNum.num 2, "ja", some "recent"⟩ : SearchParamsV).limit =
        JsNum.num ((⌊q⌋ : Int) : Rat)) ∧
    (⟨"hi", JsNum.num 2, "ja", some "recent"⟩ : SearchParamsV).language ∈ validLanguages ∧
    (∀ t, (⟨"hi", JsNum.num 2, "ja", some "recent"⟩ : SearchParamsV).timeframe = some t →
      t ∈ validTimeframes) :=
  validateSearchParams_invariant goodArgs ⟨"hi", JsNum.num 2, "ja", some "recent"⟩
    (by decide)
    (by
      simp only [validateSearchParams, goodArgs, validateLimit, validateLanguage,
        validateTimeframe, jsLtQ, jsGtQ, jsFloor]
      norm_num
      rfl)

end MCPSearch
